import Mathlib

/-!
A shallow embedding of `src/packages/easysearch:core/lib/core/search-collection.js`
(class `SearchCollection`): the Meteor publication set up in `_setUpPublication`,
the observe callbacks, the refresh timers and teardown callbacks, the id scheme
(`generateId`), and the client-side read API (`find`, `_getCount`,
`_getMongoCursor`).

Conventions: `JSON.stringify` results are modelled as opaque strings
(`definitionString`, `optionsString`); `Meteor.setInterval` handles are
allocated 1, 2, … in creation order; a missing/undefined JS value is
`Option.none`; the JS truthiness test on a configured interval number is
`≠ 0`, and on an object (cursor `_aggs`) it is `Option.isSome`.
-/

namespace EasySearch

/-- A document as the search engine cursor yields it, before the publication
stamps its meta fields: `id` is `_id`, `body` stands for all remaining fields. -/
structure RawDoc where
  id : String
  body : Nat
deriving DecidableEq, Repr

/-- A document after `addCustomFields` (source lines 153–159) stamped the
`__`-prefixed meta fields; a field the calling callback did not stamp is
`none`. -/
structure StampedDoc where
  raw : RawDoc
  searchDefinition : String
  searchOptions : String
  sortPosition : Option Nat
  originalId : Option String
deriving DecidableEq, Repr

/-- generateId (source lines 142–144):
`doc._id + doc.__searchDefinition + doc.__searchOptions`, plain string
concatenation with no separator. -/
def generateId (doc : StampedDoc) : String :=
  doc.raw.id ++ doc.searchDefinition ++ doc.searchOptions

/-- The Query Fingerprint of the spec: the serialization of the query
definition followed by the serialization of the options props, exactly the two
strings the code concatenates after the document id inside `generateId`. -/
def queryFingerprint (definitionString optionsString : String) : String :=
  definitionString ++ optionsString

/-- The Identity Mapper of the spec, `identity(originalId, queryFingerprint)`;
this is the shape `generateId` takes once the two serialized strings are
grouped into one fingerprint (see `generateId_eq_identityKey`). -/
def identityKey (originalId fingerprint : String) : String :=
  originalId ++ fingerprint

/-- Payload of a channel message: the synthetic count record
`\x7b count \x7d`, the synthetic aggregation record `\x7b aggs \x7d`, or a
stamped document. Aggregation values are opaque and modelled as `Nat`. -/
inductive Payload where
  | countPayload (count : Nat)
  | aggsPayload (aggs : Nat)
  | docPayload (doc : StampedDoc)
deriving DecidableEq, Repr

/-- A message on the subscription channel: `this.added`, `this.changed`,
`this.removed` (each with the collection name and the record key) or
`this.ready()`. -/
inductive Msg where
  | added (collection : String) (key : String) (payload : Payload)
  | changed (collection : String) (key : String) (payload : Payload)
  | removed (collection : String) (key : String)
  | ready
deriving DecidableEq, Repr

/-- Index configuration fields the publication body reads. `permission` is the
boolean outcome of `indexConfiguration.permission(options)` for this subscribe
call; `collectionDocs` is the backing store `indexConfiguration.collection`
consulted by the `movedTo` callback via `findOne(before)`. An interval of 0
models a falsy/unset interval option. -/
structure IndexConfiguration where
  permission : Bool
  countUpdateIntervalMs : Nat
  aggsUpdateIntervalMs : Nat
  collectionDocs : List RawDoc

/-- Engine configuration hooks used by the publication and the client cursor.
`beforePublish` receives the event kind and the document; the extra positional
arguments of the JS hook (indices, neighbor id, old document) are elided, as
no property proved here depends on them. -/
structure EngineConfig where
  beforePublish : String → RawDoc → RawDoc
  transform : RawDoc → RawDoc

/-- The state of one `SearchCollection` instance that the publication body
reads: its index configuration, its engine config, and the `mongoCount` flag
stored on the instance by the constructor (source line 31). -/
structure SearchCollection where
  indexConfiguration : IndexConfiguration
  engineConfig : EngineConfig
  mongoCount : Bool

/-- The cursor returned by `engine.search` (source lines 186–189), as the
publication body uses it: the ordered initial result delivered by
`mongoCursor.observe`, the value of `cursor.count()`, the value of
`cursor.mongoCursor.count()`, and `cursor._aggs` (`none` when falsy). -/
structure SearchCursor where
  initialDocs : List RawDoc
  count : Nat
  mongoCursorCount : Nat
  aggs : Option Nat
deriving DecidableEq, Repr

/-- The Meteor publication context (`this` inside the publish function). It
carries `userId`; `mongoCount` is the value of the field of that name, which
Meteor never defines on the context and which the publication body never
assigns, hence stays `none` (undefined). -/
structure PublicationContext where
  userId : Option String
  mongoCount : Option Bool
deriving DecidableEq, Repr

/-- addedAt observe callback (source lines 241–251): apply `beforePublish`,
stamp searchDefinition, searchOptions, sortPosition and originalId, emit an
added message keyed by `generateId`. -/
def addedAtMsg (col : SearchCollection) (collectionName definitionString optionsString : String)
    (doc : RawDoc) (atIndex : Nat) : Msg :=
  let doc := col.engineConfig.beforePublish "addedAt" doc
  let stamped : StampedDoc :=
    { raw := doc, searchDefinition := definitionString, searchOptions := optionsString,
      sortPosition := some atIndex, originalId := some doc.id }
  Msg.added collectionName (generateId stamped) (Payload.docPayload stamped)

/-- changedAt observe callback (source lines 252–262): same stamping as
addedAt, emitted as a changed message. -/
def changedAtMsg (col : SearchCollection) (collectionName definitionString optionsString : String)
    (doc : RawDoc) (atIndex : Nat) : Msg :=
  let doc := col.engineConfig.beforePublish "changedAt" doc
  let stamped : StampedDoc :=
    { raw := doc, searchDefinition := definitionString, searchOptions := optionsString,
      sortPosition := some atIndex, originalId := some doc.id }
  Msg.changed collectionName (generateId stamped) (Payload.docPayload stamped)

/-- movedTo observe callback (source lines 263–283): the moved document is
hooked and stamped with `sortPosition = toIndex` (no originalId); then the
neighbor is looked up by `findOne(before)` in the backing collection
(`findOne` of a null/absent id finds nothing, as Meteor rewrites a falsy
selector to match no document); when found, it is stamped with
`sortPosition = fromIndex` and a changed message for it is emitted first,
followed by the changed message for the moved document. -/
def movedToMsgs (col : SearchCollection) (collectionName definitionString optionsString : String)
    (doc : RawDoc) (fromIndex toIndex : Nat) (before : Option String) : List Msg :=
  let doc := col.engineConfig.beforePublish "movedTo" doc
  let stamped : StampedDoc :=
    { raw := doc, searchDefinition := definitionString, searchOptions := optionsString,
      sortPosition := some toIndex, originalId := none }
  let beforeDoc :=
    before.bind (fun b => col.indexConfiguration.collectionDocs.find? (fun d => d.id == b))
  let beforeMsgs : List Msg :=
    match beforeDoc with
    | some bd =>
      let stampedBefore : StampedDoc :=
        { raw := bd, searchDefinition := definitionString, searchOptions := optionsString,
          sortPosition := some fromIndex, originalId := none }
      [Msg.changed collectionName (generateId stampedBefore) (Payload.docPayload stampedBefore)]
    | none => []
  beforeMsgs ++ [Msg.changed collectionName (generateId stamped) (Payload.docPayload stamped)]

/-- removedAt observe callback (source lines 284–288): stamps only
searchDefinition and searchOptions, emits a removed message keyed by the
pre-removal identity. -/
def removedAtMsg (col : SearchCollection) (collectionName definitionString optionsString : String)
    (doc : RawDoc) : Msg :=
  let doc := col.engineConfig.beforePublish "removedAt" doc
  let stamped : StampedDoc :=
    { raw := doc, searchDefinition := definitionString, searchOptions := optionsString,
      sortPosition := none, originalId := none }
  Msg.removed collectionName (generateId stamped)

/-- Result of running the publication body (source lines 170–296) to
completion for one subscribe call. `intervalID` and `intervalAggsID` are the
final values of the two mutable locals of those names; `countTimerHandle` and
`aggsTimerHandle` record which timers were actually started. `engineCalls`
lists the engine calls made, in order. -/
structure PubResult where
  messages : List Msg
  error : Option String
  engineCalls : List String
  intervalID : Option Nat
  intervalAggsID : Option Nat
  countTimerHandle : Option Nat
  aggsTimerHandle : Option Nat
  pubContext : PublicationContext
  observerStarted : Bool
deriving DecidableEq, Repr

/-- The publication body (source lines 170–296), run to completion for one
subscribe call, before any stop. The permission gate (line 180) precedes
`checkSearchParam` (line 184) and `engine.search` (line 186) and throws
`not-allowed` when it fails. On success the body emits the count record added
message (line 193), starts the count timer when `countUpdateIntervalMs` is
truthy (lines 196–213, handle stored in `intervalID`), emits the aggregation
record added message when `cursor._aggs` is truthy (lines 217–219), starts the
aggregation timer when `_aggs` and `aggsUpdateIntervalMs` are truthy — note
line 224 stores that handle into `intervalID`, and `intervalAggsID` (line 221)
is never assigned — then `observe` delivers the initial ordered result through
`addedAt` (lines 240–251), and finally `ready` (line 295). -/
def runPublication (col : SearchCollection) (collectionName : String)
    (definitionString optionsString : String) (userId : Option String)
    (cursor : SearchCursor) : PubResult :=
  let ctx : PublicationContext := { userId := userId, mongoCount := none }
  if !col.indexConfiguration.permission then
    { messages := [], error := some "not-allowed", engineCalls := [],
      intervalID := none, intervalAggsID := none,
      countTimerHandle := none, aggsTimerHandle := none,
      pubContext := ctx, observerStarted := false }
  else
    let engineCalls := ["checkSearchParam", "search"]
    let count := cursor.count
    let countMsg : Msg :=
      Msg.added collectionName ("searchCount" ++ definitionString) (Payload.countPayload count)
    let countTimerHandle : Option Nat :=
      if col.indexConfiguration.countUpdateIntervalMs ≠ 0 then some 1 else none
    let intervalID : Option Nat := countTimerHandle
    let aggsMsgs : List Msg :=
      match cursor.aggs with
      | some a => [Msg.added collectionName ("aggs" ++ definitionString) (Payload.aggsPayload a)]
      | none => []
    let aggsTimerHandle : Option Nat :=
      if cursor.aggs.isSome ∧ col.indexConfiguration.aggsUpdateIntervalMs ≠ 0 then
        some (if countTimerHandle.isSome then 2 else 1)
      else none
    let intervalID : Option Nat :=
      match aggsTimerHandle with
      | some h => some h
      | none => intervalID
    let intervalAggsID : Option Nat := none
    let addedMsgs : List Msg :=
      cursor.initialDocs.enum.map
        (fun p => addedAtMsg col collectionName definitionString optionsString p.2 p.1)
    { messages := countMsg :: (aggsMsgs ++ addedMsgs ++ [Msg.ready]),
      error := none, engineCalls := engineCalls,
      intervalID := intervalID, intervalAggsID := intervalAggsID,
      countTimerHandle := countTimerHandle, aggsTimerHandle := aggsTimerHandle,
      pubContext := ctx, observerStarted := true }

/-- Effects of stopping the subscription: the handles passed to
`Meteor.clearInterval`, in order, and how many times `resultsHandle.stop()`
was invoked. -/
structure StopEffects where
  clearedTimers : List Nat
  observerStopCalls : Nat
deriving DecidableEq, Repr

/-- Stop the subscription: Meteor runs the registered onStop callbacks in
registration order. The first callback (source lines 234–238) clears
`intervalID` and `intervalAggsID` when truthy and stops the results handle
when truthy; the second (source lines 291–293) stops the results handle
unconditionally. If setup threw before registering them, no callback runs. -/
def runStop (r : PubResult) : StopEffects :=
  if r.error.isSome then { clearedTimers := [], observerStopCalls := 0 }
  else
    { clearedTimers :=
        (match r.intervalID with | some h => [h] | none => []) ++
        (match r.intervalAggsID with | some h => [h] | none => []),
      observerStopCalls := (if r.observerStarted then 1 else 0) + 1 }

/-- Handles of the timers that were actually started during setup. -/
def startedTimers (r : PubResult) : List Nat :=
  (match r.countTimerHandle with | some h => [h] | none => []) ++
  (match r.aggsTimerHandle with | some h => [h] | none => [])

/-- A started timer keeps firing after stop exactly when its handle was never
passed to `Meteor.clearInterval`. -/
def timersAliveAfterStop (r : PubResult) : List Nat :=
  (startedTimers r).filter (fun h => !(runStop r).clearedTimers.contains h)

/-- Value computed by the count-refresh tick (source lines 198–203): it reads
`this.mongoCount` on the publication context; when truthy it uses
`cursor.mongoCursor.count()`, otherwise `cursor.count && cursor.count() || 0`,
which is `cursor.count()` since the cursor class always has that method (and
`|| 0` re-yields 0). `tickCursor` is the captured cursor as of tick time. -/
def countTickNewCount (ctxMongoCount : Option Bool) (tickCursor : SearchCursor) : Nat :=
  match ctxMongoCount with
  | some true => tickCursor.mongoCursorCount
  | _ => tickCursor.count

/-- Message pushed by one count-refresh tick during run `r`
(source lines 205–209). -/
def countTickMsgOfRun (r : PubResult) (collectionName definitionString : String)
    (tickCursor : SearchCursor) : Msg :=
  Msg.changed collectionName ("searchCount" ++ definitionString)
    (Payload.countPayload (countTickNewCount r.pubContext.mongoCount tickCursor))

/-- Message pushed by one aggregation-refresh tick (source lines 225–229): the
payload is the `aggs` value the closure captured at subscribe time
(line 215). -/
def aggsTickMsg (collectionName definitionString : String) (capturedAggs : Nat) : Msg :=
  Msg.changed collectionName ("aggs" ++ definitionString) (Payload.aggsPayload capturedAggs)

/-- One aggregation-refresh tick viewed with its surrounding state: the value
captured at subscribe time and the value a recomputation would yield at tick
time. -/
structure AggsScenario where
  collectionName : String
  definitionString : String
  capturedAtSubscribe : Nat
  currentAtTick : Nat
deriving DecidableEq, Repr

/-- What the code pushes on an aggregation tick in scenario `s`: the captured
value. -/
def aggsTickMsgCode (s : AggsScenario) : Msg :=
  aggsTickMsg s.collectionName s.definitionString s.capturedAtSubscribe

/-- Modelled from the spec: what the spec says an aggregation tick pushes —
the facet aggregations recomputed at the time of the tick. Stated here only to
compare with `aggsTickMsgCode`. -/
def aggsTickMsgSpec (s : AggsScenario) : Msg :=
  aggsTickMsg s.collectionName s.definitionString s.currentAtTick

/-- A record in the client-side mirrored collection: either the synthetic
count record or a published document record, each under its channel key. -/
inductive ClientRecord where
  | countRec (recordId : String) (count : Nat)
  | docRec (recordId : String) (doc : StampedDoc)
deriving DecidableEq, Repr

/-- The `_id` of a client record. -/
def recordKey : ClientRecord → String
  | .countRec i _ => i
  | .docRec i _ => i

/-- _getCount (source lines 100–106): `findOne` of the count record id; yields
the `count` field when that record exists (a non-count record under that id
has no numeric count field, hence `none`). -/
def getCount (coll : List ClientRecord) (definitionString : String) : Option Nat :=
  match coll.find? (fun r => recordKey r == "searchCount" ++ definitionString) with
  | some (.countRec _ c) => some c
  | some (.docRec _ _) => none
  | none => none

/-- The document records whose stamped `__searchDefinition` and
`__searchOptions` match the selector of `_getMongoCursor`
(source lines 118–119). -/
def matchingDocs (coll : List ClientRecord) (definitionString optionsString : String) :
    List StampedDoc :=
  coll.filterMap (fun r =>
    match r with
    | .docRec _ d =>
      if d.searchDefinition == definitionString && d.searchOptions == optionsString then
        some d
      else none
    | .countRec _ _ => none)

/-- Sort key of a published document: its stamped `__sortPosition` (always
present on published document records; 0 as the undefined fallback). -/
def sortPositionKey (d : StampedDoc) : Nat :=
  d.sortPosition.getD 0

/-- Comparator of the `sort: ['__sortPosition']` clause (source line 130). -/
def sortLe (a b : StampedDoc) : Bool :=
  sortPositionKey a ≤ sortPositionKey b

/-- The matching documents in `__sortPosition` order, before the transform. -/
def sortedMatchingDocs (coll : List ClientRecord) (definitionString optionsString : String) :
    List StampedDoc :=
  (matchingDocs coll definitionString optionsString).mergeSort sortLe

/-- _getMongoCursor (source lines 117–133): the matching documents in
`__sortPosition` order, with the `__searchDefinition`, `__searchOptions` and
`__sortPosition` fields stripped (yielding the raw document; the remaining
`__originalId` field is elided here) and the engine transform applied. -/
def getMongoCursorDocs (eng : EngineConfig) (coll : List ClientRecord)
    (definitionString optionsString : String) : List RawDoc :=
  (sortedMatchingDocs coll definitionString optionsString).map (fun d => eng.transform d.raw)

/-- The cursor triple `find` returns to the caller. -/
structure ClientCursor where
  docs : List RawDoc
  count : Nat
  reactive : Bool
deriving DecidableEq, Repr

/-- find on the client (source lines 74–89): subscribe (the handle itself is
not modelled), read the count record via `_getCount`, build the sorted cursor
via `_getMongoCursor`; when the count is not a number (no count record) the
cursor is `(docs, 0, reactive := false)`, otherwise
`(docs, count, reactive := true)`. -/
def findOnClient (eng : EngineConfig) (coll : List ClientRecord)
    (definitionString optionsString : String) : ClientCursor :=
  let count := getCount coll definitionString
  let docs := getMongoCursorDocs eng coll definitionString optionsString
  match count with
  | none => { docs := docs, count := 0, reactive := false }
  | some c => { docs := docs, count := c, reactive := true }

/-! Concrete fixtures for closed evaluations. -/

/-- An engine config whose hooks are the identity. -/
def idEngineConfig : EngineConfig :=
  { beforePublish := fun _ d => d, transform := fun d => d }

/-- Fixture: both refresh intervals configured, query with aggregations. -/
def c1Col : SearchCollection :=
  { indexConfiguration :=
      { permission := true, countUpdateIntervalMs := 1000, aggsUpdateIntervalMs := 500,
        collectionDocs := [] },
    engineConfig := idEngineConfig, mongoCount := true }

/-- Fixture: empty result, aggregations present. -/
def c1Cursor : SearchCursor :=
  { initialDocs := [], count := 0, mongoCursorCount := 0, aggs := some 7 }

/-- Fixture: the completed setup of the c1 subscription. -/
def c1Run : PubResult :=
  runPublication c1Col "coll" "q" "o" none c1Cursor

/-- Fixture: no timers configured. -/
def c2Col : SearchCollection :=
  { indexConfiguration :=
      { permission := true, countUpdateIntervalMs := 0, aggsUpdateIntervalMs := 0,
        collectionDocs := [] },
    engineConfig := idEngineConfig, mongoCount := true }

/-- Fixture: one initial result document, no aggregations. -/
def c2Cursor : SearchCursor :=
  { initialDocs := [{ id := "d1", body := 0 }], count := 1, mongoCursorCount := 1, aggs := none }

/-- Fixture: a backing store that does not contain the id "zz". -/
def c3Col : SearchCollection :=
  { indexConfiguration :=
      { permission := true, countUpdateIntervalMs := 0, aggsUpdateIntervalMs := 0,
        collectionDocs := [] },
    engineConfig := idEngineConfig, mongoCount := true }

/-- Fixture: a backing store containing the neighbor document "b1". -/
def c3wCol : SearchCollection :=
  { indexConfiguration :=
      { permission := true, countUpdateIntervalMs := 0, aggsUpdateIntervalMs := 0,
        collectionDocs := [{ id := "b1", body := 5 }] },
    engineConfig := idEngineConfig, mongoCount := true }

/-- Fixture: permission granted, no timers, empty result. -/
def c5Col : SearchCollection :=
  { indexConfiguration :=
      { permission := true, countUpdateIntervalMs := 0, aggsUpdateIntervalMs := 0,
        collectionDocs := [] },
    engineConfig := idEngineConfig, mongoCount := true }

/-- Fixture: empty result without aggregations. -/
def c5Cursor : SearchCursor :=
  { initialDocs := [], count := 0, mongoCursorCount := 0, aggs := none }

/-- Fixture: permission denied. -/
def c7Col : SearchCollection :=
  { indexConfiguration :=
      { permission := false, countUpdateIntervalMs := 1000, aggsUpdateIntervalMs := 500,
        collectionDocs := [] },
    engineConfig := idEngineConfig, mongoCount := true }

/-- Fixture: a subscription with no timers for the teardown count. -/
def c8Col : SearchCollection :=
  { indexConfiguration :=
      { permission := true, countUpdateIntervalMs := 0, aggsUpdateIntervalMs := 0,
        collectionDocs := [] },
    engineConfig := idEngineConfig, mongoCount := true }

/-- Fixture: empty cursor for the teardown count. -/
def c8Cursor : SearchCursor :=
  { initialDocs := [], count := 0, mongoCursorCount := 0, aggs := none }

/-! Helper lemmas. -/

/-- Appending a fixed string on the left is cancellable. -/
theorem string_append_cancel_left {s t u : String} (h : s ++ t = s ++ u) : t = u := by
  apply String.ext
  have h2 := congrArg String.data h
  rw [String.data_append, String.data_append] at h2
  exact List.append_cancel_left h2

/-- Appending a fixed string on the right is cancellable. -/
theorem string_append_cancel_right {s t u : String} (h : s ++ u = t ++ u) : s = t := by
  apply String.ext
  have h2 := congrArg String.data h
  rw [String.data_append, String.data_append] at h2
  exact List.append_cancel_right h2

/-! Claim theorems. -/

/-- Claim C4, counterexample: the generated key is plain concatenation, so the
distinct (document id, fingerprint) pairs ("ab", "c") and ("a", "bc") collide
on the key "abc" — joint injectivity over pairs fails. -/
theorem identityKey_joint_collision :
    identityKey "ab" "c" = identityKey "a" "bc" ∧
    (("ab", "c") : String × String) ≠ ("a", "bc") := by
  decide

/-- Claim C4, amended: generateId is the Identity Mapper applied to the id and
the fingerprint; it is deterministic and injective in each argument separately
(in particular, identity(i, fp1) ≠ identity(i, fp2) whenever fp1 ≠ fp2, and
identity(i1, fp) ≠ identity(i2, fp) whenever i1 ≠ i2) — but distinct
(id, fingerprint) pairs can collide jointly, since the concatenation carries
no separator. -/
theorem generateId_deterministic_and_componentwise_injective
    (doc : StampedDoc) (i i1 i2 fp fp1 fp2 : String) :
    generateId doc =
      identityKey doc.raw.id (queryFingerprint doc.searchDefinition doc.searchOptions) ∧
    identityKey i fp = identityKey i fp ∧
    (identityKey i fp1 = identityKey i fp2 ↔ fp1 = fp2) ∧
    (identityKey i1 fp = identityKey i2 fp ↔ i1 = i2) := by
  refine ⟨?_, rfl, ?_, ?_⟩
  · apply String.ext
    simp [generateId, identityKey, queryFingerprint, String.data_append]
  · exact ⟨fun h => string_append_cancel_left h, fun h => by rw [h]⟩
  · exact ⟨fun h => string_append_cancel_right h, fun h => by rw [h]⟩

/-- Claim C5, counterexample: two subscriptions with the same definition
string "q" but different options strings "opts1" and "opts2" both push their
count record under the key "searchCountq" — the count-record keys are not
distinct, because the key is built from the definition string alone. -/
theorem count_record_key_collision_across_options :
    ("opts1" : String) ≠ "opts2" ∧
    (runPublication c5Col "coll" "q" "opts1" none c5Cursor).messages.head? =
      some (Msg.added "coll" ("searchCount" ++ "q") (Payload.countPayload 0)) ∧
    (runPublication c5Col "coll" "q" "opts2" none c5Cursor).messages.head? =
      some (Msg.added "coll" ("searchCount" ++ "q") (Payload.countPayload 0)) := by
  refine ⟨by decide, rfl, rfl⟩

/-- Claim C5, amended: the count record key is "searchCount" followed by the
serialized query definition only — independent of the options — so two
subscriptions sharing a definition share the count-record key, and keys differ
exactly when the definition strings differ. -/
theorem count_record_key_from_definition_only (col : SearchCollection)
    (cn ds os d1 d2 : String) (u : Option String) (cursor : SearchCursor)
    (h : col.indexConfiguration.permission = true) :
    (runPublication col cn ds os u cursor).messages.head? =
      some (Msg.added cn ("searchCount" ++ ds) (Payload.countPayload cursor.count)) ∧
    ("searchCount" ++ d1 = "searchCount" ++ d2 ↔ d1 = d2) := by
  constructor
  · simp [runPublication, h]
  · exact ⟨fun hh => string_append_cancel_left hh, fun hh => by rw [hh]⟩

/-- Claim C5, witness for the amended theorem at a concrete subscription. -/
theorem count_record_key_from_definition_only_witness :
    (runPublication c5Col "coll" "q" "opts1" none c5Cursor).messages.head? =
      some (Msg.added "coll" ("searchCount" ++ "q") (Payload.countPayload c5Cursor.count)) ∧
    ("searchCount" ++ "a" = "searchCount" ++ "b" ↔ ("a" : String) = "b") :=
  count_record_key_from_definition_only c5Col "coll" "q" "opts1" "a" "b" none c5Cursor rfl

/-- Claim C6, counterexample: in a scenario where the value captured at
subscribe time is 3 but a recomputation at tick time would yield 5, the
aggregation tick pushes 3 — not the aggregations at the time of the tick. -/
theorem aggs_tick_not_recomputed :
    aggsTickMsgCode { collectionName := "coll", definitionString := "q",
                      capturedAtSubscribe := 3, currentAtTick := 5 } =
      Msg.changed "coll" ("aggs" ++ "q") (Payload.aggsPayload 3) ∧
    aggsTickMsgCode { collectionName := "coll", definitionString := "q",
                      capturedAtSubscribe := 3, currentAtTick := 5 } ≠
      aggsTickMsgSpec { collectionName := "coll", definitionString := "q",
                        capturedAtSubscribe := 3, currentAtTick := 5 } := by
  decide

/-- Claim C6, amended: when aggsUpdateIntervalMs is configured (nonzero) and
the query produces aggregations, the aggregation timer is started (and only
then); each of its ticks pushes a changed message for the fixed
aggregation-identity record whose payload is the aggs value captured once at
subscribe time — the aggregations are not recomputed at tick time. -/
theorem aggs_tick_pushes_subscribe_time_value (s : AggsScenario) (col : SearchCollection)
    (cn ds os : String) (u : Option String) (cursor : SearchCursor) :
    aggsTickMsgCode s =
      Msg.changed s.collectionName ("aggs" ++ s.definitionString)
        (Payload.aggsPayload s.capturedAtSubscribe) ∧
    ((runPublication col cn ds os u cursor).aggsTimerHandle.isSome = true ↔
      (col.indexConfiguration.permission = true ∧ cursor.aggs.isSome = true ∧
       col.indexConfiguration.aggsUpdateIntervalMs ≠ 0)) := by
  constructor
  · rfl
  · cases hp : col.indexConfiguration.permission
    · simp [runPublication, hp]
    · by_cases hc : cursor.aggs.isSome = true ∧ col.indexConfiguration.aggsUpdateIntervalMs ≠ 0
      · simp [runPublication, hp, hc]
      · simp [runPublication, hp, hc]

/-- Claim C7: when permission(options) is false, the publication throws
not-allowed immediately: no channel message is emitted, no engine call
(neither checkSearchParam nor search) is made, no timer is started, and no
observer is created. -/
theorem permission_denied_terminates_without_messages_or_engine_calls
    (col : SearchCollection) (cn ds os : String) (u : Option String) (cursor : SearchCursor)
    (h : col.indexConfiguration.permission = false) :
    runPublication col cn ds os u cursor =
      { messages := [], error := some "not-allowed", engineCalls := [],
        intervalID := none, intervalAggsID := none,
        countTimerHandle := none, aggsTimerHandle := none,
        pubContext := { userId := u, mongoCount := none },
        observerStarted := false } := by
  simp [runPublication, h]

/-- Claim C7, witness at a concrete denied subscription. -/
theorem permission_denied_witness :
    runPublication c7Col "coll" "q" "o" (some "user1") c1Cursor =
      { messages := [], error := some "not-allowed", engineCalls := [],
        intervalID := none, intervalAggsID := none,
        countTimerHandle := none, aggsTimerHandle := none,
        pubContext := { userId := some "user1", mongoCount := none },
        observerStarted := false } :=
  permission_denied_terminates_without_messages_or_engine_calls
    c7Col "coll" "q" "o" (some "user1") c1Cursor rfl

/-- Claim C1: with both refresh intervals configured and aggregations present,
both timers are started (handles 1 and 2), but line 224 stores the
aggregation timer handle into intervalID, overwriting the count timer handle,
and intervalAggsID is never assigned — so teardown clears only the
aggregation timer; the count timer survives stop and its next tick still
emits a changed message for the count record. This refutes the claimed
cancel-exactly-once and silence-after-stop properties at this input. -/
theorem countTimer_survives_stop_when_both_timers_started :
    c1Run.countTimerHandle = some 1 ∧
    c1Run.aggsTimerHandle = some 2 ∧
    c1Run.intervalID = some 2 ∧
    c1Run.intervalAggsID = none ∧
    (runStop c1Run).clearedTimers = [2] ∧
    timersAliveAfterStop c1Run = [1] ∧
    countTickMsgOfRun c1Run "coll" "q" c1Cursor =
      Msg.changed "coll" ("searchCount" ++ "q") (Payload.countPayload 0) := by
  refine ⟨rfl, rfl, rfl, rfl, rfl, rfl, rfl⟩

/-- Claim C2, counterexample: for a subscription whose initial result is the
single document d1, the first channel message is the added message for the
synthetic count record — not the added message for d1 — so the first N
messages do not reproduce the initial ordered result, and the count record is
pushed before, not after, the initial result. -/
theorem first_message_is_count_record_not_first_result_doc :
    (runPublication c2Col "coll" "q" "o" none c2Cursor).messages.head? =
      some (Msg.added "coll" ("searchCount" ++ "q") (Payload.countPayload 1)) ∧
    (runPublication c2Col "coll" "q" "o" none c2Cursor).messages.head? ≠
      some (addedAtMsg c2Col "coll" "q" "o" { id := "d1", body := 0 } 0) := by
  refine ⟨rfl, by decide⟩

/-- Claim C2, amended: for every authorized subscription, the channel messages
of setup are, in order: the count record added message (pushed once,
unconditionally, before the initial result), then the aggregation record
added message if aggregations are present, then the added messages
reproducing the initial ordered result exactly and in order, then ready. -/
theorem setup_message_order (col : SearchCollection) (cn ds os : String)
    (u : Option String) (cursor : SearchCursor)
    (h : col.indexConfiguration.permission = true) :
    (runPublication col cn ds os u cursor).messages =
      Msg.added cn ("searchCount" ++ ds) (Payload.countPayload cursor.count) ::
        ((match cursor.aggs with
          | some a => [Msg.added cn ("aggs" ++ ds) (Payload.aggsPayload a)]
          | none => []) ++
         cursor.initialDocs.enum.map (fun p => addedAtMsg col cn ds os p.2 p.1) ++
         [Msg.ready]) := by
  simp [runPublication, h]

/-- Claim C2, witness for the amended theorem at a concrete subscription. -/
theorem setup_message_order_witness :
    (runPublication c2Col "coll" "q" "o" none c2Cursor).messages =
      Msg.added "coll" ("searchCount" ++ "q") (Payload.countPayload c2Cursor.count) ::
        ((match c2Cursor.aggs with
          | some a => [Msg.added "coll" ("aggs" ++ "q") (Payload.aggsPayload a)]
          | none => []) ++
         c2Cursor.initialDocs.enum.map (fun p => addedAtMsg c2Col "coll" "q" "o" p.2 p.1) ++
         [Msg.ready]) :=
  setup_message_order c2Col "coll" "q" "o" none c2Cursor rfl

/-- Claim C3, counterexample: a MovedTo event whose before id ("zz") is not
found in the backing store produces exactly one changed message (for the
moved document), not two. -/
theorem movedTo_single_message_when_before_missing :
    movedToMsgs c3Col "coll" "q" "o" { id := "d1", body := 0 } 2 0 (some "zz") =
      [Msg.changed "coll" (generateId { raw := { id := "d1", body := 0 },
                                        searchDefinition := "q", searchOptions := "o",
                                        sortPosition := some 0, originalId := none })
        (Payload.docPayload { raw := { id := "d1", body := 0 },
                              searchDefinition := "q", searchOptions := "o",
                              sortPosition := some 0, originalId := none })] ∧
    (movedToMsgs c3Col "coll" "q" "o" { id := "d1", body := 0 } 2 0 (some "zz")).length ≠ 2 := by
  refine ⟨rfl, by decide⟩

/-- Claim C3, amended: a MovedTo(doc, fromIndex, toIndex, before) event
produces a changed message for the moved document stamped with its new
position toIndex, preceded by a changed message for the document found under
the before id in the backing store — stamped with the superseded position
fromIndex — when and only when that lookup succeeds; when the before document
is not found (or before is null), only the moved document's changed message
is emitted. -/
theorem movedTo_two_changed_messages_when_before_found (col : SearchCollection)
    (cn ds os : String) (doc : RawDoc) (fromIndex toIndex : Nat) (b : String) (bd : RawDoc)
    (h : col.indexConfiguration.collectionDocs.find? (fun d => d.id == b) = some bd) :
    movedToMsgs col cn ds os doc fromIndex toIndex (some b) =
      [Msg.changed cn (generateId { raw := bd, searchDefinition := ds, searchOptions := os,
                                    sortPosition := some fromIndex, originalId := none })
         (Payload.docPayload { raw := bd, searchDefinition := ds, searchOptions := os,
                               sortPosition := some fromIndex, originalId := none }),
       Msg.changed cn
         (generateId { raw := col.engineConfig.beforePublish "movedTo" doc,
                       searchDefinition := ds, searchOptions := os,
                       sortPosition := some toIndex, originalId := none })
         (Payload.docPayload { raw := col.engineConfig.beforePublish "movedTo" doc,
                               searchDefinition := ds, searchOptions := os,
                               sortPosition := some toIndex, originalId := none })] := by
  simp [movedToMsgs, h]

/-- Claim C3, witness for the amended theorem: the store contains the
neighbor b1, and the event yields the two changed messages in order. -/
theorem movedTo_two_changed_messages_witness :
    movedToMsgs c3wCol "coll" "q" "o" { id := "d1", body := 0 } 2 0 (some "b1") =
      [Msg.changed "coll" (generateId { raw := { id := "b1", body := 5 },
                                        searchDefinition := "q", searchOptions := "o",
                                        sortPosition := some 2, originalId := none })
         (Payload.docPayload { raw := { id := "b1", body := 5 },
                               searchDefinition := "q", searchOptions := "o",
                               sortPosition := some 2, originalId := none }),
       Msg.changed "coll"
         (generateId { raw := c3wCol.engineConfig.beforePublish "movedTo" { id := "d1", body := 0 },
                       searchDefinition := "q", searchOptions := "o",
                       sortPosition := some 0, originalId := none })
         (Payload.docPayload { raw := c3wCol.engineConfig.beforePublish "movedTo" { id := "d1", body := 0 },
                               searchDefinition := "q", searchOptions := "o",
                               sortPosition := some 0, originalId := none })] :=
  movedTo_two_changed_messages_when_before_found c3wCol "coll" "q" "o"
    { id := "d1", body := 0 } 2 0 "b1" { id := "b1", body := 5 } rfl

/-- Claim C8, counterexample: stopping a completed subscription runs both
registered onStop callbacks, and each calls resultsHandle.stop(), so the
observer handle is stopped twice — not exactly once. -/
theorem observer_stopped_twice_on_stop :
    (runStop (runPublication c8Col "coll" "q" "o" none c8Cursor)).observerStopCalls = 2 ∧
    (2 : Nat) ≠ 1 := by
  refine ⟨rfl, by decide⟩

/-- Claim C8, amended: when a subscription that completed setup stops, the
Result Observer handle's stop() is invoked exactly twice — once by each of
the two registered onStop callbacks — and never zero times. -/
theorem observer_stop_called_exactly_twice (col : SearchCollection) (cn ds os : String)
    (u : Option String) (cursor : SearchCursor)
    (h : col.indexConfiguration.permission = true) :
    (runStop (runPublication col cn ds os u cursor)).observerStopCalls = 2 := by
  simp [runPublication, runStop, h]

/-- Claim C8, witness for the amended theorem at a concrete subscription. -/
theorem observer_stop_called_exactly_twice_witness :
    (runStop (runPublication c8Col "coll" "q" "o" none c8Cursor)).observerStopCalls = 2 :=
  observer_stop_called_exactly_twice c8Col "coll" "q" "o" none c8Cursor rfl

/-- Claim C9: find on the client returns reactive = true and the count record
value exactly when the count record for the search definition exists
(otherwise reactive = false and count = 0), and it returns the matching
documents in sort-position order: the returned list is the transform of a
position-sorted permutation of the matching document records. -/
theorem find_returns_ordered_docs_count_and_reactive (eng : EngineConfig)
    (coll : List ClientRecord) (ds os : String) :
    (findOnClient eng coll ds os).reactive = (getCount coll ds).isSome ∧
    (findOnClient eng coll ds os).count = (getCount coll ds).getD 0 ∧
    (findOnClient eng coll ds os).docs =
      (sortedMatchingDocs coll ds os).map (fun d => eng.transform d.raw) ∧
    List.Pairwise (fun a b => sortLe a b = true) (sortedMatchingDocs coll ds os) ∧
    (sortedMatchingDocs coll ds os).Perm (matchingDocs coll ds os) := by
  refine ⟨?_, ?_, ?_, ?_, ?_⟩
  · cases h : getCount coll ds <;> simp [findOnClient, h]
  · cases h : getCount coll ds <;> simp [findOnClient, h]
  · cases h : getCount coll ds <;> simp [findOnClient, getMongoCursorDocs, h]
  · exact @List.sorted_mergeSort StampedDoc sortLe
      (fun a b c hab hbc => by
        simp [sortLe] at hab hbc ⊢
        omega)
      (fun a b => by
        simp [sortLe]
        omega)
      (matchingDocs coll ds os)
  · exact List.mergeSort_perm (matchingDocs coll ds os) sortLe

/-- Claim C10: the count-refresh tick reads mongoCount on the publication
context, which is never assigned there (it stays none/undefined), so for
every configuration — whatever mongoCount value the constructor stored on
the SearchCollection instance — the refreshed count is computed from
cursor.count(), never from cursor.mongoCursor.count() (which only the
unreachable some-true branch would use). -/
theorem count_refresh_ignores_mongoCount_flag (col : SearchCollection)
    (cn ds os : String) (u : Option String) (cursor tickCursor : SearchCursor) :
    (runPublication col cn ds os u cursor).pubContext.mongoCount = none ∧
    countTickMsgOfRun (runPublication col cn ds os u cursor) cn ds tickCursor =
      Msg.changed cn ("searchCount" ++ ds) (Payload.countPayload tickCursor.count) ∧
    countTickNewCount (some true) tickCursor = tickCursor.mongoCursorCount := by
  have hctx : (runPublication col cn ds os u cursor).pubContext.mongoCount = none := by
    cases hp : col.indexConfiguration.permission <;> simp [runPublication, hp]
  refine ⟨hctx, ?_, rfl⟩
  simp [countTickMsgOfRun, hctx, countTickNewCount]

end EasySearch
